import Mathlib

/-!
Verification of the TCP bridge core of `mcp_server/server.py`
(UnityConnection, its framing receiver, the command dispatcher and the
connection registry), as a shallow embedding.

Modelling conventions:
* JSON documents are modelled by the inductive type `Json`.  Numbers are
  modelled as integers; JSON float literals (fractions, exponents, and
  Python's `NaN`/`Infinity` extensions) are outside the embedding and the
  parser rejects them, as floating point is out of scope.
* Byte buffers are modelled at the decoded-character level (`List Char`);
  every wire example in the specification is ASCII, where bytes and
  characters coincide.  `json.loads(data.decode('utf-8'))` is modelled by
  `Json.parseChars`.
* `json.dumps` with its default options (separators `", "` and `": "`,
  `ensure_ascii=True`) is modelled by `Json.dumps`.
-/

mutual

/-- A JSON value, as produced by `json.loads`. -/
inductive Json where
  | null
  | bool (b : Bool)
  | num (n : Int)
  | str (s : String)
  | arr (items : JArr)
  | obj (fields : JObj)

/-- A list of JSON values (the contents of a JSON array). -/
inductive JArr where
  | nil
  | cons (hd : Json) (tl : JArr)

/-- An insertion-ordered dictionary with JSON values (a Python `dict`
built by `json.loads` or written literally in the source). -/
inductive JObj where
  | nil
  | cons (key : String) (val : Json) (tl : JObj)

end

deriving instance DecidableEq for Json, JArr, JObj

/-- Dictionary lookup, `d[k]` / `d.get(k)`: fields produced by the model
have unique keys, so the first match is the binding. -/
def JObj.get : JObj → String → Option Json
  | .nil, _ => none
  | .cons k v t, key => if k = key then some v else t.get key

/-- Dictionary assignment `d[k] = v`: replaces the value at an existing
key in place (Python keeps the original insertion position), otherwise
appends the new binding at the end. -/
def JObj.set : JObj → String → Json → JObj
  | .nil, k, v => .cons k v .nil
  | .cons k0 v0 t, k, v =>
    if k0 = k then .cons k0 v t else .cons k0 v0 (t.set k v)

/-- Append one JSON value at the end of an array. -/
def JArr.push : JArr → Json → JArr
  | .nil, v => .cons v .nil
  | .cons h t, v => .cons h (t.push v)

/-- Python truthiness of a JSON value: `None`, `False`, `0`, `""`, `[]`
and `\x7b\x7d` are falsy. -/
def Json.truthy : Json → Bool
  | .null => false
  | .bool b => b
  | .num n => n != 0
  | .str s => !(s = "")
  | .arr a => !(a = JArr.nil)
  | .obj f => !(f = JObj.nil)

/-- Python truthiness of an optional value (`dict.get` returns `None`
for a missing key, which is falsy). -/
def truthyOpt : Option Json → Bool
  | none => false
  | some v => v.truthy

/-- The Python type name of the object a JSON value decodes to, used in
`AttributeError` messages. -/
def Json.pyTypeName : Json → String
  | .null => "NoneType"
  | .bool _ => "bool"
  | .num _ => "int"
  | .str _ => "str"
  | .arr _ => "list"
  | .obj _ => "dict"

/-- Lower-case hexadecimal digit. -/
def hexDigit (n : Nat) : Char :=
  if n < 10 then Char.ofNat (48 + n) else Char.ofNat (87 + n)

/-- Four lower-case hexadecimal digits, as in Python's `\uXXXX` escapes. -/
def hex4 (n : Nat) : String :=
  String.mk [hexDigit (n / 4096 % 16), hexDigit (n / 256 % 16),
             hexDigit (n / 16 % 16), hexDigit (n % 16)]

/-- Escape one character of a JSON string the way `json.dumps` does with
`ensure_ascii=True` (the default). -/
def jsonEscapeChar (c : Char) : String :=
  if c = '"' then "\\\""
  else if c = '\\' then "\\\\"
  else if c = '\n' then "\\n"
  else if c = '\r' then "\\r"
  else if c = '\t' then "\\t"
  else if c = Char.ofNat 8 then "\\b"
  else if c = Char.ofNat 12 then "\\f"
  else if c.toNat < 32 then "\\u" ++ hex4 c.toNat
  else if c.toNat < 127 then String.singleton c
  else if c.toNat ≤ 65535 then "\\u" ++ hex4 c.toNat
  else
    let v := c.toNat - 65536
    "\\u" ++ hex4 (55296 + v / 1024) ++ "\\u" ++ hex4 (56320 + v % 1024)

/-- `json.dumps` of a string: a double-quoted, `ensure_ascii`-escaped
literal. -/
def jsonQuote (s : String) : String :=
  "\"" ++ String.join (s.data.map jsonEscapeChar) ++ "\""

mutual

/-- `json.dumps` with its default options: separators `", "` and `": "`,
insertion order preserved, `ensure_ascii=True`. -/
def Json.dumps : Json → String
  | .null => "null"
  | .bool true => "true"
  | .bool false => "false"
  | .num n => toString n
  | .str s => jsonQuote s
  | .arr .nil => "[]"
  | .arr (.cons h t) => "[" ++ Json.dumps h ++ JArr.dumpsRest t ++ "]"
  | .obj .nil => "\x7b\x7d"
  | .obj (.cons k v t) =>
      "\x7b" ++ jsonQuote k ++ ": " ++ Json.dumps v ++ JObj.dumpsRest t ++ "\x7d"

/-- Remaining array items, each preceded by the `", "` separator. -/
def JArr.dumpsRest : JArr → String
  | .nil => ""
  | .cons h t => ", " ++ Json.dumps h ++ JArr.dumpsRest t

/-- Remaining object members, each preceded by the `", "` separator. -/
def JObj.dumpsRest : JObj → String
  | .nil => ""
  | .cons k v t => ", " ++ jsonQuote k ++ ": " ++ Json.dumps v ++ JObj.dumpsRest t

end

/-- Escape one character of a Python string `repr`, given the quote
delimiter in use.  Control characters become `\n`, `\r`, `\t` or `\xhh`;
other characters are kept (an approximation of Python's printability
rule, which only differs on exotic code points no claim exercises). -/
def pyReprEscapeChar (quote : Char) (c : Char) : String :=
  if c = '\\' then "\\\\"
  else if c = quote then "\\" ++ String.singleton quote
  else if c = '\n' then "\\n"
  else if c = '\r' then "\\r"
  else if c = '\t' then "\\t"
  else if c.toNat < 32 ∨ c.toNat = 127 then
    "\\x" ++ String.mk [hexDigit (c.toNat / 16), hexDigit (c.toNat % 16)]
  else String.singleton c

/-- Python `repr` of a string: single-quoted, unless the string contains
a single quote and no double quote. -/
def pyReprStr (s : String) : String :=
  let sq := Char.ofNat 39
  let quote := if s.data.contains sq ∧ ¬ s.data.contains '"' then '"' else sq
  String.singleton quote ++ String.join (s.data.map (pyReprEscapeChar quote))
    ++ String.singleton quote

mutual

/-- Python `repr` of the object a JSON value decodes to. -/
def Json.pyRepr : Json → String
  | .null => "None"
  | .bool true => "True"
  | .bool false => "False"
  | .num n => toString n
  | .str s => pyReprStr s
  | .arr .nil => "[]"
  | .arr (.cons h t) => "[" ++ Json.pyRepr h ++ JArr.pyReprRest t ++ "]"
  | .obj .nil => "\x7b\x7d"
  | .obj (.cons k v t) =>
      "\x7b" ++ pyReprStr k ++ ": " ++ Json.pyRepr v ++ JObj.pyReprRest t ++ "\x7d"

/-- Remaining list items of a Python `repr`. -/
def JArr.pyReprRest : JArr → String
  | .nil => ""
  | .cons h t => ", " ++ Json.pyRepr h ++ JArr.pyReprRest t

/-- Remaining dict items of a Python `repr`. -/
def JObj.pyReprRest : JObj → String
  | .nil => ""
  | .cons k v t => ", " ++ pyReprStr k ++ ": " ++ Json.pyRepr v ++ JObj.pyReprRest t

end

/-- Python `str` of the object a JSON value decodes to (`str` of a `str`
is itself; containers and scalars print as their `repr`). -/
def Json.pyStr : Json → String
  | .str s => s
  | v => v.pyRepr

/-- The opening brace character. -/
def lbrace : Char := Char.ofNat 123

/-- The closing brace character. -/
def rbrace : Char := Char.ofNat 125

/-- JSON whitespace, as accepted between tokens by `json.loads`. -/
def isJsonWs (c : Char) : Bool :=
  c = ' ' || c = '\t' || c = '\n' || c = '\r'

/-- Drop leading JSON whitespace. -/
def skipWs : List Char → List Char
  | [] => []
  | c :: r => if isJsonWs c then skipWs r else c :: r

/-- Value of one hexadecimal digit. -/
def hexVal (c : Char) : Option Nat :=
  if '0' ≤ c ∧ c ≤ '9' then some (c.toNat - 48)
  else if 'a' ≤ c ∧ c ≤ 'f' then some (c.toNat - 87)
  else if 'A' ≤ c ∧ c ≤ 'F' then some (c.toNat - 55)
  else none

/-- Four hexadecimal digits, as consumed by a `\uXXXX` escape. -/
def hex4Val : List Char → Option (Nat × List Char)
  | a :: b :: c :: d :: r =>
    match hexVal a, hexVal b, hexVal c, hexVal d with
    | some x, some y, some z, some w => some (((x * 16 + y) * 16 + z) * 16 + w, r)
    | _, _, _, _ => none
  | _ => none

/-- String body parser, positioned after the opening quote; returns the
decoded characters and the input following the closing quote.  Strict
mode: raw control characters are rejected.  A `\uXXXX` high surrogate
must be followed by a low surrogate (Lean characters are Unicode scalar
values, so the lone surrogates Python tolerates are unrepresentable and
rejected here; no claim exercises them).  Fuel decreases on every
consumed character. -/
def parseStrF : Nat → List Char → Option (List Char × List Char)
  | 0, _ => none
  | _ + 1, [] => none
  | _ + 1, '"' :: r => some ([], r)
  | f + 1, '\\' :: esc =>
    match esc with
    | '"' :: r => (parseStrF f r).map fun p => ('"' :: p.1, p.2)
    | '\\' :: r => (parseStrF f r).map fun p => ('\\' :: p.1, p.2)
    | '/' :: r => (parseStrF f r).map fun p => ('/' :: p.1, p.2)
    | 'b' :: r => (parseStrF f r).map fun p => (Char.ofNat 8 :: p.1, p.2)
    | 'f' :: r => (parseStrF f r).map fun p => (Char.ofNat 12 :: p.1, p.2)
    | 'n' :: r => (parseStrF f r).map fun p => ('\n' :: p.1, p.2)
    | 'r' :: r => (parseStrF f r).map fun p => ('\r' :: p.1, p.2)
    | 't' :: r => (parseStrF f r).map fun p => ('\t' :: p.1, p.2)
    | 'u' :: r =>
      match hex4Val r with
      | none => none
      | some (n, r2) =>
        if 55296 ≤ n ∧ n ≤ 56319 then
          match r2 with
          | '\\' :: 'u' :: r3 =>
            match hex4Val r3 with
            | none => none
            | some (m, r4) =>
              if 56320 ≤ m ∧ m ≤ 57343 then
                (parseStrF f r4).map fun p =>
                  (Char.ofNat (65536 + (n - 55296) * 1024 + (m - 56320)) :: p.1, p.2)
              else none
          | _ => none
        else if 56320 ≤ n ∧ n ≤ 57343 then none
        else (parseStrF f r2).map fun p => (Char.ofNat n :: p.1, p.2)
    | _ => none
  | f + 1, c :: r =>
    if c.toNat < 32 then none
    else (parseStrF f r).map fun p => (c :: p.1, p.2)

/-- Integer literal parser.  Fraction and exponent parts (and Python's
`NaN`/`Infinity` extensions) denote floats, which are out of scope of
the embedding and rejected. -/
def parseNum (cs : List Char) : Option (Json × List Char) :=
  let (neg, cs1) := match cs with
    | '-' :: r => (true, r)
    | _ => (false, cs)
  let ds := cs1.takeWhile Char.isDigit
  let rest := cs1.dropWhile Char.isDigit
  if ds = [] then none
  else if 1 < ds.length ∧ ds.headD '0' = '0' then none
  else match rest with
    | '.' :: _ => none
    | 'e' :: _ => none
    | 'E' :: _ => none
    | _ =>
      let n : Nat := ds.foldl (fun a c => a * 10 + (c.toNat - 48)) 0
      some (Json.num (if neg then -(n : Int) else (n : Int)), rest)

mutual

/-- Fuel-indexed JSON value parser (the acceptance behaviour of
`json.loads`): returns the parsed value and the remaining input. -/
def parseVal : Nat → List Char → Option (Json × List Char)
  | 0, _ => none
  | f + 1, cs =>
    match skipWs cs with
    | [] => none
    | '"' :: r => (parseStrF (r.length + 1) r).map fun p => (Json.str (String.mk p.1), p.2)
    | '[' :: r =>
      match skipWs r with
      | ']' :: r2 => some (Json.arr .nil, r2)
      | r2 => (parseItems f JArr.nil r2).map fun p => (Json.arr p.1, p.2)
    | 'n' :: 'u' :: 'l' :: 'l' :: r => some (Json.null, r)
    | 't' :: 'r' :: 'u' :: 'e' :: r => some (Json.bool true, r)
    | 'f' :: 'a' :: 'l' :: 's' :: 'e' :: r => some (Json.bool false, r)
    | c :: r =>
      if c = lbrace then
        match skipWs r with
        | [] => none
        | d :: r2 =>
          if d = rbrace then some (Json.obj .nil, r2)
          else (parseMembers f JObj.nil (d :: r2)).map fun p => (Json.obj p.1, p.2)
      else parseNum (c :: r)

/-- Object member list parser; duplicate keys overwrite in place, as
successive `dict` assignments do in `json.loads`. -/
def parseMembers : Nat → JObj → List Char → Option (JObj × List Char)
  | 0, _, _ => none
  | f + 1, acc, cs =>
    match skipWs cs with
    | '"' :: r =>
      match parseStrF (r.length + 1) r with
      | none => none
      | some (kcs, r2) =>
        match skipWs r2 with
        | ':' :: r3 =>
          match parseVal f r3 with
          | none => none
          | some (v, r4) =>
            let acc2 := acc.set (String.mk kcs) v
            match skipWs r4 with
            | [] => none
            | t :: r5 =>
              if t = ',' then parseMembers f acc2 r5
              else if t = rbrace then some (acc2, r5)
              else none
        | _ => none
    | _ => none

/-- Array item list parser. -/
def parseItems : Nat → JArr → List Char → Option (JArr × List Char)
  | 0, _, _ => none
  | f + 1, acc, cs =>
    match parseVal f cs with
    | none => none
    | some (v, r) =>
      match skipWs r with
      | ',' :: r2 => parseItems f (acc.push v) r2
      | ']' :: r2 => some (acc.push v, r2)
      | _ => none

end

/-- `json.loads` on a character buffer: the whole buffer must be one
JSON document, up to surrounding whitespace.  The fuel bound exceeds the
deepest possible recursion (at most two fuel units are spent per
consumed character). -/
def Json.parseChars (cs : List Char) : Option Json :=
  match parseVal (2 * cs.length + 2) cs with
  | some (v, rest) => if skipWs rest = [] then some v else none
  | none => none

/-!
The framing receiver `UnityConnection.receive_full_response`.

A call to `sock.recv` is modelled by the next element of a finite event
trace: the chunk it returned (the empty chunk standing for an orderly
close), a `socket.timeout`, or a connection-level error
(`ConnectionError` / `BrokenPipeError` / `ConnectionResetError`).  The
accumulated buffer stands for `b''.join(chunks)`.
-/

/-- One observed result of a `sock.recv` call. -/
inductive RecvEv where
  | data (chunk : List Char)
  | timeout
  | connErr (msg : String)
deriving DecidableEq

/-- How a run of `receive_full_response` ends. -/
inductive RecvOutcome where
  /-- The buffer is returned (it decoded as a complete JSON document). -/
  | ok (buf : List Char)
  /-- `Exception("Connection closed before receiving any data")`. -/
  | connectionClosed
  /-- A connection-level error was re-raised. -/
  | connError (msg : String)
  /-- `Exception("Incomplete JSON response received")`. -/
  | incomplete
  /-- `Exception("No data received")`. -/
  | noData
  /-- Artifact of the finite event trace: the loop would still be
  blocking on `recv`. -/
  | blocked
deriving DecidableEq

/-- Which control path ended the run (instrumentation alongside the
outcome; `receive_full_response` itself only exposes the outcome). -/
inductive ExitKind where
  /-- Returned from inside the read loop. -/
  | returned
  /-- Zero-length read with an empty buffer. -/
  | closedEmpty
  /-- Connection-level error re-raised from inside the loop. -/
  | sockErr
  /-- `break` on a zero-length read with a non-empty buffer. -/
  | brokeEof
  /-- `break` on `socket.timeout`. -/
  | brokeTimeout
  /-- Artifact: the event trace was exhausted inside the loop. -/
  | starved
deriving DecidableEq

/-- Result of a run of the receiver: outcome, exit path, and the buffer
contents at the moment the loop was left. -/
structure RecvRun where
  outcome : RecvOutcome
  exit : ExitKind
  buf : List Char
deriving DecidableEq

/-- The code after the read loop: one final decode of a non-empty
buffer, `Exception("No data received")` on an empty one. -/
def finishRecv (buf : List Char) (k : ExitKind) : RecvRun :=
  if buf = [] then ⟨.noData, k, buf⟩
  else match Json.parseChars buf with
    | some _ => ⟨.ok buf, k, buf⟩
    | none => ⟨.incomplete, k, buf⟩

/-- The read loop of `receive_full_response`: each event is the result
of the next `recv`; a chunk is appended and the whole buffer is offered
to `json.loads`, success returning it immediately. -/
def recvLoop (buf : List Char) : List RecvEv → RecvRun
  | [] => ⟨.blocked, .starved, buf⟩
  | .data chunk :: rest =>
    if chunk = [] then
      if buf = [] then ⟨.connectionClosed, .closedEmpty, buf⟩
      else finishRecv buf .brokeEof
    else
      let buf2 := buf ++ chunk
      match Json.parseChars buf2 with
      | some _ => ⟨.ok buf2, .returned, buf2⟩
      | none => recvLoop buf2 rest
  | .timeout :: _ => finishRecv buf .brokeTimeout
  | .connErr msg :: _ => ⟨.connError msg, .sockErr, buf⟩

/-- `receive_full_response`, starting from an empty buffer. -/
def receive_full_response (events : List RecvEv) : RecvOutcome :=
  (recvLoop [] events).outcome

/-- Variant of the post-loop code with the final decode removed: a
non-empty buffer always fails as incomplete.  Used to state that the
post-loop success branch of the source is unreachable. -/
def finishRecvNF (buf : List Char) (k : ExitKind) : RecvRun :=
  if buf = [] then ⟨.noData, k, buf⟩ else ⟨.incomplete, k, buf⟩

/-- The read loop wired to `finishRecvNF` instead of `finishRecv`. -/
def recvLoopNF (buf : List Char) : List RecvEv → RecvRun
  | [] => ⟨.blocked, .starved, buf⟩
  | .data chunk :: rest =>
    if chunk = [] then
      if buf = [] then ⟨.connectionClosed, .closedEmpty, buf⟩
      else finishRecvNF buf .brokeEof
    else
      let buf2 := buf ++ chunk
      match Json.parseChars buf2 with
      | some _ => ⟨.ok buf2, .returned, buf2⟩
      | none => recvLoopNF buf2 rest
  | .timeout :: _ => finishRecvNF buf .brokeTimeout
  | .connErr msg :: _ => ⟨.connError msg, .sockErr, buf⟩

/-!
The Connection (`UnityConnection`), the dispatcher (`send_command`) and
the registry (`get_unity_connection`).

Python object identity is made explicit: every `UnityConnection()`
construction draws a fresh `id`, and every `socket.socket()` construction
draws a fresh socket number.  Whether a `sock.connect` attempt succeeds
is read off an oracle list (the environment may change between
attempts), one entry consumed per attempt.
-/

/-- A `UnityConnection` object: identity, the fixed host and port, and
the `sock` attribute (`None` or a live socket). -/
structure Conn where
  id : Nat
  host : String
  port : Nat
  sock : Option Nat
deriving DecidableEq

/-- The process-wide mutable state around the Connection: the global
`_unity_connection`, fresh-identity counters, and the connect oracle. -/
structure World where
  conn : Option Conn
  nextConnId : Nat
  nextSockId : Nat
  connectResults : List Bool
deriving DecidableEq

/-- `UnityConnection.connect`: returns `True` at once if `self.sock` is
set; otherwise constructs a socket, attempts to connect (consuming one
oracle entry), stores the socket on success and clears `self.sock` on
failure. -/
def connect (c : Conn) (w : World) : Bool × Conn × World :=
  match c.sock with
  | some _ => (true, c, w)
  | none =>
    let ok := w.connectResults.headD false
    let w2 := { w with connectResults := w.connectResults.tail,
                       nextSockId := w.nextSockId + 1 }
    if ok then (true, { c with sock := some w.nextSockId }, w2)
    else (false, { c with sock := none }, w2)

/-- `UnityConnection.disconnect`: best-effort close, always clears the
handle. -/
def disconnect (c : Conn) : Conn :=
  { c with sock := none }

/-- What `send_command` produced: the returned `data` value, or the
message of the exception it raised.  `blocked` is the artifact outcome
of an exhausted event trace. -/
inductive SendResult where
  | ok (data : Json)
  | error (msg : String)
  | blocked
deriving DecidableEq

/-- Result of a `send_command` call: result, the Connection afterwards
(`self` with its possibly-cleared `sock`), the world afterwards, and the
serialized request that was written to the socket, if the send was
reached. -/
structure SendOut where
  result : SendResult
  conn : Conn
  world : World
  sent : Option String
deriving DecidableEq

/-- `params or \x7b\x7d`: `None` and any falsy value are replaced by an
empty dict. -/
def paramsOrEmpty : Option Json → Json
  | none => Json.obj .nil
  | some p => if p.truthy then p else Json.obj .nil

/-- The envelope `send_command` serializes:
`\x7b"type": command_type, "parameters": json.dumps(params or \x7b\x7d)\x7d` —
note the `parameters` member is the *string* produced by the inner
`json.dumps`, not the parameters object itself. -/
def requestEnvelope (commandType : String) (params : Option Json) : Json :=
  Json.obj (.cons "type" (.str commandType)
    (.cons "parameters" (.str (Json.dumps (paramsOrEmpty params))) .nil))

/-- The body of `send_command` (the `try` block and its handlers),
entered with a live socket. -/
def sendCommandBody (c : Conn) (w : World) (commandType : String)
    (params : Option Json) (events : List RecvEv) : SendOut :=
  let payload := Json.dumps (requestEnvelope commandType params)
  match (recvLoop [] events).outcome with
  | .ok buf =>
    match Json.parseChars buf with
    | some (.obj fields) =>
      if truthyOpt (fields.get "success") then
        ⟨.ok ((fields.get "data").getD (Json.obj .nil)), c, w, some payload⟩
      else
        -- `raise Exception(response.get("error", "Unknown error from Unity"))`
        -- is caught by the final `except Exception` handler, which clears
        -- `self.sock` and wraps the message.
        ⟨.error ("Communication error with Unity: "
            ++ ((fields.get "error").getD (Json.str "Unknown error from Unity")).pyStr),
          { c with sock := none }, w, some payload⟩
    | some v =>
      -- `response.get` on a non-dict raises `AttributeError`, caught by the
      -- final handler: `self.sock` is cleared.
      ⟨.error ("Communication error with Unity: '" ++ v.pyTypeName
          ++ "' object has no attribute 'get'"),
        { c with sock := none }, w, some payload⟩
    | none =>
      -- `json.JSONDecodeError` branch: does not clear `self.sock`.  It is
      -- unreachable, since the receiver only returns decodable buffers.
      ⟨.error "Invalid response from Unity", c, w, some payload⟩
  | .connectionClosed =>
    ⟨.error "Communication error with Unity: Connection closed before receiving any data",
      { c with sock := none }, w, some payload⟩
  | .connError msg =>
    ⟨.error ("Connection to Unity lost: " ++ msg), { c with sock := none }, w, some payload⟩
  | .incomplete =>
    ⟨.error "Communication error with Unity: Incomplete JSON response received",
      { c with sock := none }, w, some payload⟩
  | .noData =>
    ⟨.error "Communication error with Unity: No data received",
      { c with sock := none }, w, some payload⟩
  | .blocked => ⟨.blocked, c, w, some payload⟩

/-- `UnityConnection.send_command`: connect on demand
(`if not self.sock and not self.connect(): raise ConnectionError(...)`),
then serialize, send, receive and interpret the response. -/
def send_command (c : Conn) (w : World) (commandType : String)
    (params : Option Json) (events : List RecvEv) : SendOut :=
  match c.sock with
  | some _ => sendCommandBody c w commandType params events
  | none =>
    match connect c w with
    | (true, c2, w2) => sendCommandBody c2 w2 commandType params events
    | (false, c2, w2) => ⟨.error "Not connected to Unity", c2, w2, none⟩

/-- What `get_unity_connection` did: returned a Connection, or raised
`ConnectionError`. -/
inductive GetConnResult where
  | ok (c : Conn)
  | connectionError (msg : String)
deriving DecidableEq

/-- `get_unity_connection`: lazily construct the global Connection, try
to connect it (in place), and on failure substitute one freshly
constructed Connection, raising `ConnectionError` if that also fails. -/
def get_unity_connection (w : World) : GetConnResult × World :=
  let (c, w) := match w.conn with
    | some c => (c, w)
    | none =>
      let c : Conn := ⟨w.nextConnId, "localhost", 9876, none⟩
      (c, { w with conn := some c, nextConnId := w.nextConnId + 1 })
  let (ok, c, w) := connect c w
  let w := { w with conn := some c }
  if ok then (GetConnResult.ok c, w)
  else
    let c2 : Conn := ⟨w.nextConnId, "localhost", 9876, none⟩
    let w := { w with conn := some c2, nextConnId := w.nextConnId + 1 }
    let (ok2, c2, w) := connect c2 w
    let w := { w with conn := some c2 }
    if ok2 then (GetConnResult.ok c2, w)
    else (GetConnResult.connectionError "Failed to connect to Unity", w)

/-- Modelled from the spec, for comparison with `requestEnvelope`: the
request envelope as §3 and §6 describe it, with `parameters` being "the
parameters object itself as a JSON object (an empty object when
parameters is absent)". -/
def specRequestEnvelope (commandType : String) (params : Option Json) : Json :=
  Json.obj (.cons "type" (.str commandType)
    (.cons "parameters" (paramsOrEmpty params) .nil))

/-!
Helper lemmas about the framing receiver.  The loop invariant is that
the accumulated buffer is empty or has just failed to decode.
-/

/-- Under the loop invariant, the final decode after the loop can never
succeed, so wiring the loop to `finishRecvNF` changes nothing. -/
theorem recvLoop_eq_nf (ev : List RecvEv) (buf : List Char)
    (hinv : buf = [] ∨ Json.parseChars buf = none) :
    recvLoop buf ev = recvLoopNF buf ev := by
  induction ev generalizing buf with
  | nil => rfl
  | cons e rest ih =>
    cases e with
    | data chunk =>
      by_cases hc : chunk = []
      · subst hc
        by_cases hb : buf = []
        · simp [recvLoop, recvLoopNF, hb]
        · rcases hinv with h | h
          · exact absurd h hb
          · simp [recvLoop, recvLoopNF, finishRecv, finishRecvNF, hb, h]
      · cases hp : Json.parseChars (buf ++ chunk) with
        | some v => simp [recvLoop, recvLoopNF, hc, hp]
        | none =>
          simp only [recvLoop, recvLoopNF, hc, hp, if_neg hc]
          exact ih (buf ++ chunk) (Or.inr hp)
    | timeout =>
      rcases hinv with h | h
      · simp [recvLoop, recvLoopNF, finishRecv, finishRecvNF, h]
      · by_cases hb : buf = [] <;>
          simp [recvLoop, recvLoopNF, finishRecv, finishRecvNF, hb, h]
    | connErr m => rfl

/-- Characterization of a receiver run started under the loop
invariant: each failure outcome matches exactly one exit path, and a
successful outcome returns the non-empty buffer from inside the loop. -/
theorem recvLoop_char (ev : List RecvEv) (buf : List Char)
    (hinv : buf = [] ∨ Json.parseChars buf = none) :
    ((recvLoop buf ev).outcome = .connectionClosed ↔ (recvLoop buf ev).exit = .closedEmpty)
    ∧ ((recvLoop buf ev).outcome = .noData ↔
        (((recvLoop buf ev).exit = .brokeEof ∨ (recvLoop buf ev).exit = .brokeTimeout)
          ∧ (recvLoop buf ev).buf = []))
    ∧ ((recvLoop buf ev).outcome = .incomplete ↔
        (((recvLoop buf ev).exit = .brokeEof ∨ (recvLoop buf ev).exit = .brokeTimeout)
          ∧ (recvLoop buf ev).buf ≠ []
          ∧ Json.parseChars (recvLoop buf ev).buf = none))
    ∧ (∀ b, (recvLoop buf ev).outcome = .ok b →
        (recvLoop buf ev).exit = .returned ∧ b = (recvLoop buf ev).buf ∧ b ≠ []) := by
  induction ev generalizing buf with
  | nil => simp [recvLoop]
  | cons e rest ih =>
    cases e with
    | data chunk =>
      by_cases hc : chunk = []
      · subst hc
        by_cases hb : buf = []
        · simp [recvLoop, hb]
        · rcases hinv with h | h
          · exact absurd h hb
          · simp [recvLoop, finishRecv, hb, h]
      · cases hp : Json.parseChars (buf ++ chunk) with
        | some v =>
          have hne : buf ++ chunk ≠ [] := by
            simp [List.append_eq_nil, hc]
          simp [recvLoop, hc, hp, hne]
        | none =>
          simp only [recvLoop, hc, hp, if_neg hc]
          exact ih (buf ++ chunk) (Or.inr hp)
    | timeout =>
      have hpn : buf = [] ∨ Json.parseChars buf = none := hinv
      by_cases hb : buf = []
      · simp [recvLoop, finishRecv, hb]
      · rcases hpn with h | h
        · exact absurd h hb
        · simp [recvLoop, finishRecv, hb, h]
    | connErr m => simp [recvLoop]

/-- Concatenation of received chunks, `b''.join(chunks)`. -/
def joinChunks : List (List Char) → List Char
  | [] => []
  | c :: r => c ++ joinChunks r

/-- If no proper prefix of the chunk sequence decodes but the whole
sequence does, the loop appends every chunk and returns the full buffer
at that first decodable point, leaving any later events unconsumed. -/
theorem recvLoop_first_parse (chunks : List (List Char)) (extra : List RecvEv)
    (buf : List Char) (v : Json)
    (hch : chunks ≠ [])
    (hne : ∀ c ∈ chunks, c ≠ [])
    (hpre : ∀ k, k < chunks.length →
      Json.parseChars (buf ++ joinChunks (chunks.take k)) = none)
    (hv : Json.parseChars (buf ++ joinChunks chunks) = some v) :
    recvLoop buf (chunks.map RecvEv.data ++ extra)
      = ⟨.ok (buf ++ joinChunks chunks), .returned, buf ++ joinChunks chunks⟩ := by
  induction chunks generalizing buf with
  | nil => exact absurd rfl hch
  | cons c rest ih =>
    have hc : c ≠ [] := hne c (by simp)
    by_cases hr : rest = []
    · subst hr
      have hv' : Json.parseChars (buf ++ c) = some v := by
        simpa [joinChunks] using hv
      simp [recvLoop, hc, hv', joinChunks]
    · have hp : Json.parseChars (buf ++ c) = none := by
        have h1 := hpre 1 (by
          have : rest.length ≠ 0 := by simpa [List.length_eq_zero] using hr
          simp
          omega)
        simpa [joinChunks] using h1
      simp only [List.map_cons, List.cons_append, recvLoop, if_neg hc, hp]
      have goal := ih (buf ++ c) hr
        (fun x hx => hne x (by simp [hx]))
        (fun k hk => by
          have := hpre (k + 1) (by simpa using hk)
          simpa [joinChunks, List.append_assoc] using this)
        (by simpa [joinChunks, List.append_assoc] using hv)
      simpa [joinChunks, List.append_assoc] using goal

/-- Claim C9: `connect()` is idempotent: on a Connection whose socket
handle is already live it returns true immediately, creating no second
socket (no socket counter or oracle consumption) and leaving the
existing handle and all state unmodified. -/
theorem c9_connect_idempotent (c : Conn) (w : World) (s : Nat)
    (hs : c.sock = some s) : connect c w = (true, c, w) := by
  simp [connect, hs]

/-- Witness for C9 at a concrete already-connected Connection. -/
theorem c9_connect_idempotent_witness :
    connect ⟨0, "localhost", 9876, some 5⟩ ⟨none, 0, 0, [false]⟩
      = (true, ⟨0, "localhost", 9876, some 5⟩, ⟨none, 0, 0, [false]⟩) :=
  c9_connect_idempotent _ _ 5 rfl

/-- Claim C10: every chunk append is immediately followed by a decode
attempt and the loop exits only without appending, so the buffer seen by
the post-loop final decode has already failed to decode: the receiver is
extensionally equal to the variant whose post-loop success branch is
deleted, and any successful outcome was returned from inside the read
loop. -/
theorem c10_post_loop_success_unreachable (events : List RecvEv) :
    recvLoop [] events = recvLoopNF [] events
    ∧ (∀ b, (recvLoop [] events).outcome = .ok b →
        (recvLoop [] events).exit = .returned) := by
  refine ⟨recvLoop_eq_nf events [] (Or.inl rfl), fun b hb => ?_⟩
  exact ((recvLoop_char events [] (Or.inl rfl)).2.2.2 b hb).1

/-- Witness for C10 on a concrete trace that times out with a partial
buffer. -/
theorem c10_witness :
    recvLoop [] [RecvEv.data ("\x7b\"a\":".data), RecvEv.timeout]
      = recvLoopNF [] [RecvEv.data ("\x7b\"a\":".data), RecvEv.timeout] :=
  (c10_post_loop_success_unreachable _).1

/-- Claim C4: the receiver fails with `ConnectionClosed` exactly when a
zero-length read occurs on an empty buffer; after the loop ends it fails
with `NoData` exactly when the buffer is empty and with
`IncompleteResponse` exactly when the non-empty buffer does not decode;
it never returns an empty buffer as success, and the post-loop code
performs no further reads. -/
theorem c4_receiver_failure_taxonomy (events : List RecvEv) :
    (receive_full_response events = .connectionClosed ↔
      (recvLoop [] events).exit = .closedEmpty)
    ∧ (receive_full_response events = .noData ↔
        (((recvLoop [] events).exit = .brokeEof ∨
          (recvLoop [] events).exit = .brokeTimeout)
          ∧ (recvLoop [] events).buf = []))
    ∧ (receive_full_response events = .incomplete ↔
        (((recvLoop [] events).exit = .brokeEof ∨
          (recvLoop [] events).exit = .brokeTimeout)
          ∧ (recvLoop [] events).buf ≠ []
          ∧ Json.parseChars (recvLoop [] events).buf = none))
    ∧ (∀ b, receive_full_response events = .ok b → b ≠ []) := by
  have h := recvLoop_char events [] (Or.inl rfl)
  exact ⟨h.1, h.2.1, h.2.2.1, fun b hb => (h.2.2.2 b hb).2.2⟩

/-- Witness for C4: a trace that times out before any data fails with
`NoData`, and a zero-length first read fails with `ConnectionClosed`. -/
theorem c4_witness :
    receive_full_response [RecvEv.timeout] = .noData
    ∧ receive_full_response [RecvEv.data []] = .connectionClosed := by
  constructor
  · exact (c4_receiver_failure_taxonomy [RecvEv.timeout]).2.1.mpr
      ⟨Or.inr (by decide), by decide⟩
  · exact (c4_receiver_failure_taxonomy [RecvEv.data []]).1.mpr (by decide)

/-- Claim C3: the receiver appends each chunk and returns the full
buffer at the first point at which the accumulated bytes decode as JSON
(any later events are not consumed); in particular a response split
into the two chunks of the scenario is accumulated and the round trip
returns the object with the version field. -/
theorem c3_chunk_accumulation (chunks : List (List Char)) (extra : List RecvEv)
    (v : Json)
    (hch : chunks ≠ [])
    (hne : ∀ c ∈ chunks, c ≠ [])
    (hpre : ∀ k, k < chunks.length →
      Json.parseChars (joinChunks (chunks.take k)) = none)
    (hv : Json.parseChars (joinChunks chunks) = some v) :
    receive_full_response (chunks.map RecvEv.data ++ extra) = .ok (joinChunks chunks)
    ∧ receive_full_response
        [RecvEv.data ("\x7b\"success\":".data),
         RecvEv.data ("true,\"data\":\x7b\"version\":\"1.0\"\x7d\x7d".data)]
        = .ok ("\x7b\"success\":true,\"data\":\x7b\"version\":\"1.0\"\x7d\x7d".data)
    ∧ (send_command ⟨0, "localhost", 9876, some 7⟩ ⟨none, 0, 0, []⟩
        "core.GetSystemInfo" none
        [RecvEv.data ("\x7b\"success\":".data),
         RecvEv.data ("true,\"data\":\x7b\"version\":\"1.0\"\x7d\x7d".data)]).result
        = SendResult.ok (Json.obj (.cons "version" (.str "1.0") .nil)) := by
  refine ⟨?_, by decide, by decide⟩
  have h := recvLoop_first_parse chunks extra [] v hch hne
    (by simpa using hpre) (by simpa using hv)
  simp [receive_full_response, h]

/-- Witness for C3 at the scenario's two chunks. -/
theorem c3_witness :
    receive_full_response
      [RecvEv.data ("\x7b\"success\":".data),
       RecvEv.data ("true,\"data\":\x7b\"version\":\"1.0\"\x7d\x7d".data)]
      = .ok ("\x7b\"success\":true,\"data\":\x7b\"version\":\"1.0\"\x7d\x7d".data) := by
  have h := c3_chunk_accumulation
    [("\x7b\"success\":".data), ("true,\"data\":\x7b\"version\":\"1.0\"\x7d\x7d".data)]
    []
    (Json.obj (.cons "success" (.bool true)
      (.cons "data" (.obj (.cons "version" (.str "1.0") .nil)) .nil)))
    (by decide) (by decide)
    (by
      intro k hk
      have hk2 : k < 2 := by simpa using hk
      interval_cases k
      · decide
      · decide)
    (by decide)
  simpa using h.2.1

/-- On a live socket `send_command` reaches the `sendall` and the bytes
written are always the serialization of `requestEnvelope`, whatever the
response handling then does. -/
theorem sendCommandBody_sent (c : Conn) (w : World) (t : String)
    (p : Option Json) (events : List RecvEv) :
    (sendCommandBody c w t p events).sent
      = some (Json.dumps (requestEnvelope t p)) := by
  unfold sendCommandBody
  cases ho : (recvLoop [] events).outcome with
  | ok buf =>
    cases hp : Json.parseChars buf with
    | none => simp [hp]
    | some v =>
      cases v <;> simp [hp]
      split <;> simp
  | connectionClosed => simp
  | connError m => simp
  | incomplete => simp
  | noData => simp
  | blocked => simp

/-- Counterexample to claim C2: at the concrete command
`object.CreatePrimitive` with parameters `\x7b"name": "Cube1"\x7d`, the bytes
written are the serialization of an envelope whose `parameters` member
is a JSON *string* (the inner `json.dumps` output), not the parameters
object itself, so they differ from the serialization the claim
describes (`specRequestEnvelope`). -/
theorem c2_counterexample :
    (send_command ⟨0, "localhost", 9876, some 7⟩ ⟨none, 0, 0, []⟩
        "object.CreatePrimitive"
        (some (Json.obj (.cons "name" (.str "Cube1") .nil))) []).sent
      = some (Json.dumps (requestEnvelope "object.CreatePrimitive"
          (some (Json.obj (.cons "name" (.str "Cube1") .nil)))))
    ∧ (send_command ⟨0, "localhost", 9876, some 7⟩ ⟨none, 0, 0, []⟩
        "object.CreatePrimitive"
        (some (Json.obj (.cons "name" (.str "Cube1") .nil))) []).sent
      ≠ some (Json.dumps (specRequestEnvelope "object.CreatePrimitive"
          (some (Json.obj (.cons "name" (.str "Cube1") .nil)))))
    ∧ requestEnvelope "object.CreatePrimitive"
        (some (Json.obj (.cons "name" (.str "Cube1") .nil)))
      ≠ specRequestEnvelope "object.CreatePrimitive"
        (some (Json.obj (.cons "name" (.str "Cube1") .nil))) := by
  refine ⟨by decide, by decide, by decide⟩

/-- Claim C2 as amended: for every command type and parameters value,
the bytes `send_command` writes (on a live socket) are the UTF-8 JSON
serialization of an envelope whose `type` member is the command string
and whose `parameters` member is the JSON *string* holding the
serialization of the parameters dict (the string containing an empty
object when parameters are absent), with no trailing delimiter. -/
theorem c2_sent_payload (c : Conn) (w : World) (s : Nat) (t : String)
    (p : Option Json) (events : List RecvEv) (hs : c.sock = some s) :
    (send_command c w t p events).sent
      = some (Json.dumps (Json.obj (.cons "type" (.str t)
          (.cons "parameters" (.str (Json.dumps (paramsOrEmpty p))) .nil)))) := by
  have hbody : send_command c w t p events = sendCommandBody c w t p events := by
    simp [send_command, hs]
  rw [hbody]
  exact sendCommandBody_sent c w t p events

/-- Witness for C2's amended claim at a concrete command. -/
theorem c2_sent_payload_witness :
    (send_command ⟨0, "localhost", 9876, some 7⟩ ⟨none, 0, 0, []⟩
        "core.GetSystemInfo" none []).sent
      = some (Json.dumps (Json.obj (.cons "type" (.str "core.GetSystemInfo")
          (.cons "parameters" (.str (Json.dumps (paramsOrEmpty none))) .nil)))) :=
  c2_sent_payload _ _ 7 _ _ _ rfl

/-- Claim C5: when the remote response is well-formed JSON with a truthy
`success`, `send_command` returns exactly the `data` member of the
response, unmodified, and an empty object when the `data` key is
absent. -/
theorem c5_success_returns_data (c : Conn) (w : World) (s : Nat) (t : String)
    (p : Option Json) (events : List RecvEv) (buf : List Char) (fields : JObj)
    (hs : c.sock = some s)
    (hok : (recvLoop [] events).outcome = .ok buf)
    (hr : Json.parseChars buf = some (.obj fields))
    (hsucc : truthyOpt (fields.get "success") = true) :
    (∀ d, fields.get "data" = some d →
      (send_command c w t p events).result = SendResult.ok d)
    ∧ (fields.get "data" = none →
      (send_command c w t p events).result = SendResult.ok (Json.obj .nil)) := by
  have hbody : send_command c w t p events = sendCommandBody c w t p events := by
    simp [send_command, hs]
  constructor
  · intro d hd
    simp [hbody, sendCommandBody, hok, hr, hsucc, hd]
  · intro hd
    simp [hbody, sendCommandBody, hok, hr, hsucc, hd]

/-- Witness for C5: a one-chunk success response with a `data` object is
returned verbatim. -/
theorem c5_success_returns_data_witness :
    (send_command ⟨0, "localhost", 9876, some 7⟩ ⟨none, 0, 0, []⟩
        "scene.GetSceneInfo" none
        [RecvEv.data ("\x7b\"success\":true,\"data\":\x7b\"name\":\"Main\"\x7d\x7d".data)]).result
      = SendResult.ok (Json.obj (.cons "name" (.str "Main") .nil)) := by
  have h := c5_success_returns_data ⟨0, "localhost", 9876, some 7⟩ ⟨none, 0, 0, []⟩
    7 "scene.GetSceneInfo" none
    [RecvEv.data ("\x7b\"success\":true,\"data\":\x7b\"name\":\"Main\"\x7d\x7d".data)]
    ("\x7b\"success\":true,\"data\":\x7b\"name\":\"Main\"\x7d\x7d".data)
    (.cons "success" (.bool true)
      (.cons "data" (.obj (.cons "name" (.str "Main") .nil)) .nil))
    rfl (by decide) (by decide) (by decide)
  exact h.1 (Json.obj (.cons "name" (.str "Main") .nil)) (by decide)

/-- Counterexample to claim C1: on the scenario response
`\x7b"success":false,"error":"object not found"\x7d`, `send_command` does
fail, but the generic `except Exception` handler catches the re-raised
remote error, so the failure message is the wrapped
"Communication error with Unity: object not found" and `self.sock` is
*cleared*, not left intact as the claim states. -/
theorem c1_counterexample :
    (send_command ⟨0, "localhost", 9876, some 7⟩ ⟨none, 0, 0, []⟩
        "object.GetObjectInfo" none
        [RecvEv.data ("\x7b\"success\":false,\"error\":\"object not found\"\x7d".data)]).result
      = SendResult.error "Communication error with Unity: object not found"
    ∧ (send_command ⟨0, "localhost", 9876, some 7⟩ ⟨none, 0, 0, []⟩
        "object.GetObjectInfo" none
        [RecvEv.data ("\x7b\"success\":false,\"error\":\"object not found\"\x7d".data)]).conn.sock
      = none
    ∧ ¬ (send_command ⟨0, "localhost", 9876, some 7⟩ ⟨none, 0, 0, []⟩
        "object.GetObjectInfo" none
        [RecvEv.data ("\x7b\"success\":false,\"error\":\"object not found\"\x7d".data)]).conn.sock
      = some 7 := by
  refine ⟨by decide, by decide, by decide⟩

/-- Claim C1 as amended: on every well-formed response with `success`
false, `send_command` fails and never returns a data value; the raised
failure carries the remote error message embedded in the wrapped text
"Communication error with Unity: ..."; and (contrary to the original
claim) the Connection's socket handle is cleared, so the next call must
reconnect. -/
theorem c1_remote_error_clears_socket (c : Conn) (w : World) (s : Nat)
    (t : String) (p : Option Json) (events : List RecvEv) (buf : List Char)
    (fields : JObj) (msg : String)
    (hs : c.sock = some s)
    (hok : (recvLoop [] events).outcome = .ok buf)
    (hr : Json.parseChars buf = some (.obj fields))
    (hsucc : truthyOpt (fields.get "success") = false)
    (herr : fields.get "error" = some (.str msg)) :
    (send_command c w t p events).result
      = SendResult.error ("Communication error with Unity: " ++ msg)
    ∧ (∀ d, (send_command c w t p events).result ≠ SendResult.ok d)
    ∧ (send_command c w t p events).conn.sock = none := by
  have hbody : send_command c w t p events = sendCommandBody c w t p events := by
    simp [send_command, hs]
  have hres : sendCommandBody c w t p events
      = ⟨.error ("Communication error with Unity: " ++ msg),
          { c with sock := none }, w,
          some (Json.dumps (requestEnvelope t p))⟩ := by
    simp [sendCommandBody, hok, hr, hsucc, herr, Json.pyStr]
  refine ⟨by simp [hbody, hres], ?_, by simp [hbody, hres]⟩
  intro d
  simp [hbody, hres]

/-- Witness for C1's amended claim at the scenario response. -/
theorem c1_remote_error_clears_socket_witness :
    (send_command ⟨1, "localhost", 9876, some 3⟩ ⟨none, 0, 0, []⟩
        "object.DeleteObject" none
        [RecvEv.data ("\x7b\"success\":false,\"error\":\"object not found\"\x7d".data)]).result
      = SendResult.error "Communication error with Unity: object not found"
    ∧ (send_command ⟨1, "localhost", 9876, some 3⟩ ⟨none, 0, 0, []⟩
        "object.DeleteObject" none
        [RecvEv.data ("\x7b\"success\":false,\"error\":\"object not found\"\x7d".data)]).conn.sock
      = none := by
  have h := c1_remote_error_clears_socket ⟨1, "localhost", 9876, some 3⟩
    ⟨none, 0, 0, []⟩ 3 "object.DeleteObject" none
    [RecvEv.data ("\x7b\"success\":false,\"error\":\"object not found\"\x7d".data)]
    ("\x7b\"success\":false,\"error\":\"object not found\"\x7d".data)
    (.cons "success" (.bool false) (.cons "error" (.str "object not found") .nil))
    "object not found"
    rfl (by decide) (by decide) (by decide) (by decide)
  exact ⟨h.1, h.2.2⟩

/-- Claim C6: if the socket read times out leaving a non-empty buffer
that does not decode, `send_command` fails (the wrapped incomplete
response error) and the socket handle is cleared, so the next
`send_command` on that Connection attempts a fresh `connect()` before
sending: if the connect is refused nothing is sent and it fails with
`Not connected to Unity`, and if the connect is granted the request is
sent on the fresh socket. -/
theorem c6_timeout_invalidates_connection (c : Conn) (w : World) (s : Nat)
    (t : String) (p : Option Json) (events : List RecvEv)
    (hs : c.sock = some s)
    (hexit : (recvLoop [] events).exit = .brokeTimeout)
    (hbuf : (recvLoop [] events).buf ≠ [])
    (hparse : Json.parseChars (recvLoop [] events).buf = none) :
    (send_command c w t p events).result
      = SendResult.error "Communication error with Unity: Incomplete JSON response received"
    ∧ (send_command c w t p events).conn.sock = none
    ∧ (∀ w2 t2 p2 ev2, w2.connectResults.headD false = false →
        (send_command (send_command c w t p events).conn w2 t2 p2 ev2).result
          = SendResult.error "Not connected to Unity"
        ∧ (send_command (send_command c w t p events).conn w2 t2 p2 ev2).sent = none)
    ∧ (∀ w2 t2 p2 ev2, w2.connectResults.headD false = true →
        (send_command (send_command c w t p events).conn w2 t2 p2 ev2).sent
          = some (Json.dumps (requestEnvelope t2 p2))) := by
  have hinc : (recvLoop [] events).outcome = .incomplete :=
    (recvLoop_char events [] (Or.inl rfl)).2.2.1.mpr ⟨Or.inr hexit, hbuf, hparse⟩
  have hbody : send_command c w t p events = sendCommandBody c w t p events := by
    simp [send_command, hs]
  have hres : sendCommandBody c w t p events
      = ⟨.error "Communication error with Unity: Incomplete JSON response received",
          { c with sock := none }, w, some (Json.dumps (requestEnvelope t p))⟩ := by
    simp [sendCommandBody, hinc]
  refine ⟨by simp [hbody, hres], by simp [hbody, hres], ?_, ?_⟩
  · intro w2 t2 p2 ev2 h2
    rw [List.headD_eq_head?] at h2
    rw [hbody, hres]
    constructor <;> simp [send_command, connect, List.headD_eq_head?, h2]
  · intro w2 t2 p2 ev2 h2
    rw [List.headD_eq_head?] at h2
    rw [hbody, hres]
    simp [send_command, connect, List.headD_eq_head?, h2, sendCommandBody_sent]

/-- Witness for C6: a partial chunk followed by a timeout, then a
refused reconnect. -/
theorem c6_timeout_invalidates_connection_witness :
    (send_command ⟨0, "localhost", 9876, some 7⟩ ⟨none, 0, 0, []⟩ "t" none
        [RecvEv.data ("\x7b\"success\":".data), RecvEv.timeout]).result
      = SendResult.error "Communication error with Unity: Incomplete JSON response received"
    ∧ (send_command ⟨0, "localhost", 9876, some 7⟩ ⟨none, 0, 0, []⟩ "t" none
        [RecvEv.data ("\x7b\"success\":".data), RecvEv.timeout]).conn.sock = none
    ∧ (send_command (send_command ⟨0, "localhost", 9876, some 7⟩ ⟨none, 0, 0, []⟩
          "t" none [RecvEv.data ("\x7b\"success\":".data), RecvEv.timeout]).conn
        ⟨none, 0, 0, [false]⟩ "u" none []).result
      = SendResult.error "Not connected to Unity" := by
  have h := c6_timeout_invalidates_connection ⟨0, "localhost", 9876, some 7⟩
    ⟨none, 0, 0, []⟩ 7 "t" none
    [RecvEv.data ("\x7b\"success\":".data), RecvEv.timeout]
    rfl (by decide) (by decide) (by decide)
  exact ⟨h.1, h.2.1, (h.2.2.1 ⟨none, 0, 0, [false]⟩ "u" none [] rfl).1⟩

/-- Counterexample to claim C7: with the held Connection (identity 0)
invalidated (`sock = None`) and the environment accepting connections,
`get_unity_connection` returns that same object with a re-established
socket — the identity counter is untouched, so no new Connection was
constructed: the failed Connection *is* silently repaired in place. -/
theorem c7_counterexample :
    (get_unity_connection ⟨some ⟨0, "localhost", 9876, none⟩, 1, 5, [true]⟩).1
      = GetConnResult.ok ⟨0, "localhost", 9876, some 5⟩
    ∧ (get_unity_connection ⟨some ⟨0, "localhost", 9876, none⟩, 1, 5, [true]⟩).2.conn
      = some ⟨0, "localhost", 9876, some 5⟩
    ∧ (get_unity_connection ⟨some ⟨0, "localhost", 9876, none⟩, 1, 5, [true]⟩).2.nextConnId
      = 1 := by
  refine ⟨by decide, by decide, by decide⟩

/-- Claim C7 as amended: after an I/O failure invalidates the held
Connection, the next `get_connection` first re-establishes a socket on
the *same* Connection object (repairing it in place) when the connect
attempt succeeds; only when that in-place attempt fails is a newly
constructed Connection substituted for subsequent use. -/
theorem c7_repair_in_place_then_substitute (w : World) (c : Conn)
    (hc : w.conn = some c) (hs : c.sock = none) :
    (w.connectResults.headD false = true →
      (get_unity_connection w).1 = GetConnResult.ok { c with sock := some w.nextSockId }
      ∧ (get_unity_connection w).2.conn = some { c with sock := some w.nextSockId }
      ∧ (get_unity_connection w).2.nextConnId = w.nextConnId)
    ∧ (w.connectResults.headD false = false →
        w.connectResults.tail.headD false = true →
        (get_unity_connection w).1
          = GetConnResult.ok ⟨w.nextConnId, "localhost", 9876, some (w.nextSockId + 1)⟩
        ∧ (get_unity_connection w).2.nextConnId = w.nextConnId + 1) := by
  constructor
  · intro h1
    rw [List.headD_eq_head?] at h1
    refine ⟨?_, ?_, ?_⟩ <;>
      simp [get_unity_connection, hc, connect, hs, List.headD_eq_head?, h1]
  · intro h1 h2
    rw [List.headD_eq_head?] at h1 h2
    rw [List.head?_tail] at h2
    refine ⟨?_, ?_⟩ <;>
      simp [get_unity_connection, hc, connect, hs, List.headD_eq_head?, h1, h2]

/-- Witness for C7's amended claim: in-place repair of the invalidated
Connection when the reconnect succeeds. -/
theorem c7_repair_in_place_then_substitute_witness :
    (get_unity_connection ⟨some ⟨4, "localhost", 9876, none⟩, 9, 2, [true]⟩).1
      = GetConnResult.ok ⟨4, "localhost", 9876, some 2⟩
    ∧ (get_unity_connection ⟨some ⟨4, "localhost", 9876, none⟩, 9, 2, [true]⟩).2.nextConnId
      = 9 := by
  have h := (c7_repair_in_place_then_substitute
    ⟨some ⟨4, "localhost", 9876, none⟩, 9, 2, [true]⟩
    ⟨4, "localhost", 9876, none⟩ rfl rfl).1 (by decide)
  exact ⟨h.1, h.2.2⟩

/-- Counterexample to claim C8: with no Connection held and the first
connect attempt failing (oracle `[false, true]`), `get_unity_connection`
does not fail with `ConnectionError` as the claim states — it constructs
a second fresh Connection, retries, and returns it. -/
theorem c8_counterexample :
    (⟨none, 0, 0, [false, true]⟩ : World).connectResults.headD false = false
    ∧ (get_unity_connection ⟨none, 0, 0, [false, true]⟩).1
      = GetConnResult.ok ⟨1, "localhost", 9876, some 1⟩ := by
  refine ⟨by decide, by decide⟩

/-- Claim C8 as amended: `get_connection()` with no Connection held
constructs one with the fixed host/port and attempts to connect; with a
held but disconnected Connection it first retries the connect on the
held object in place.  In either case, when the first attempt fails it
constructs one fresh Connection and retries exactly once (consuming
exactly two oracle entries), failing with `ConnectionError` only when
the retry also fails. -/
theorem c8_registry_retry_behaviour (w : World) :
    (w.conn = none →
      (w.connectResults.headD false = true →
        (get_unity_connection w).1
          = GetConnResult.ok ⟨w.nextConnId, "localhost", 9876, some w.nextSockId⟩)
      ∧ (w.connectResults.headD false = false →
          w.connectResults.tail.headD false = true →
          (get_unity_connection w).1
            = GetConnResult.ok ⟨w.nextConnId + 1, "localhost", 9876, some (w.nextSockId + 1)⟩)
      ∧ (w.connectResults.headD false = false →
          w.connectResults.tail.headD false = false →
          (get_unity_connection w).1
            = GetConnResult.connectionError "Failed to connect to Unity"
          ∧ (get_unity_connection w).2.connectResults = w.connectResults.tail.tail))
    ∧ (∀ c, w.conn = some c → c.sock = none →
        w.connectResults.headD false = false →
        w.connectResults.tail.headD false = false →
        (get_unity_connection w).1
          = GetConnResult.connectionError "Failed to connect to Unity"
        ∧ (get_unity_connection w).2.connectResults = w.connectResults.tail.tail) := by
  constructor
  · intro hc
    refine ⟨?_, ?_, ?_⟩
    · intro h1
      rw [List.headD_eq_head?] at h1
      simp [get_unity_connection, hc, connect, List.headD_eq_head?, h1]
    · intro h1 h2
      rw [List.headD_eq_head?] at h1 h2
      rw [List.head?_tail] at h2
      simp [get_unity_connection, hc, connect, List.headD_eq_head?, h1, h2]
    · intro h1 h2
      rw [List.headD_eq_head?] at h1 h2
      rw [List.head?_tail] at h2
      constructor <;>
        simp [get_unity_connection, hc, connect, List.headD_eq_head?, h1, h2]
  · intro c hc hs h1 h2
    rw [List.headD_eq_head?] at h1 h2
    rw [List.head?_tail] at h2
    constructor <;>
      simp [get_unity_connection, hc, connect, hs, List.headD_eq_head?, h1, h2]

/-- Witness for C8's amended claim: both attempts refused leads to
`ConnectionError` with both oracle entries consumed. -/
theorem c8_registry_retry_behaviour_witness :
    (get_unity_connection ⟨none, 0, 0, [false, false]⟩).1
      = GetConnResult.connectionError "Failed to connect to Unity"
    ∧ (get_unity_connection ⟨none, 0, 0, [false, false]⟩).2.connectResults = [] := by
  have h := ((c8_registry_retry_behaviour ⟨none, 0, 0, [false, false]⟩).1 rfl).2.2
    (by decide) (by decide)
  exact ⟨h.1, h.2⟩
